import Mathlib

/-!
Verification of the qutebrowser bookmark importer (`scripts/importer.py`).

The script converts a Netscape bookmark file into line-oriented text:
it classifies each anchor tag as search / keyword / bookmark, escapes
search hrefs, filters duplicates and renders each surviving tag through
a `(output_format, type)` template table.

The shallow embedding below models:
  * Python `str.replace` on the one- and two-character patterns the
    script uses (`'{'`, `'}'`, `'%s'`), as structural recursion on
    `List Char`;
  * `search_escape` (line 142) and its call site
    `search_escape(tag['href']).replace('%s', '{}')` (line 199);
  * the three `bookmark_query` predicates (lines 162-175), which may
    raise `KeyError` when `tag['href']` is read on a tag without a
    `href` attribute;
  * the `output_template` table (lines 176-193) and Python
    `str.format`, where `{tag[attr]}` raises `KeyError` for a missing
    attribute but `{tag.string}` formats `None` as the text `"None"`;
  * the main loop of `import_netscape_bookmarks` (lines 194-204),
    including its membership test `tag['href'] not in bookmarks`
    against the list of already rendered lines;
  * the flag-resolution logic of `main` (lines 41-75).
-/

namespace Importer

/-- Python `s.replace(a, new)` for a single-character pattern `a`:
every occurrence of the character is replaced, left to right. -/
def pyReplace1 (a : Char) (new : List Char) : List Char → List Char
  | [] => []
  | c :: rest =>
    if c = a then new ++ pyReplace1 a new rest
    else c :: pyReplace1 a new rest

/-- Python `s.replace(ab, new)` for a two-character pattern `a b`:
non-overlapping occurrences are replaced left to right. -/
def pyReplace2 (a b : Char) (new : List Char) : List Char → List Char
  | [] => []
  | [c] => [c]
  | c :: d :: rest =>
    if c = a ∧ d = b then new ++ pyReplace2 a b new rest
    else c :: pyReplace2 a b new (d :: rest)

/-- Python `ab in s` for a two-character pattern `a b`. -/
def hasSub2 (a b : Char) : List Char → Bool
  | [] => false
  | c :: rest => (c = a && rest.head? = some b) || hasSub2 a b rest

/-- `search_escape(url)` (line 142-147):
`url.replace('{', '{{').replace('}', '}}')`. -/
def search_escape (l : List Char) : List Char :=
  pyReplace1 '}' ['}', '}'] (pyReplace1 '{' ['{', '{'] l)

/-- The full escape applied to a search href at line 199:
`search_escape(tag['href']).replace('%s', '{}')`. -/
def escapeHref (l : List Char) : List Char :=
  pyReplace2 '%' 's' ['{', '}'] (search_escape l)

/-- String-level wrapper for `search_escape` composed with the
`%s → {}` replacement of line 199. -/
def escapeHrefS (s : String) : String :=
  String.mk (escapeHref s.data)

/-- `'%s' in s`, on strings. -/
def hasPercentS (s : String) : Bool :=
  hasSub2 '%' 's' s.data

/-- One character of the spec's brace-doubling: `{ ↦ {{`, `} ↦ }}`,
anything else unchanged. -/
def dbl (c : Char) : List Char :=
  if c = '{' then ['{', '{'] else if c = '}' then ['}', '}'] else [c]

/-- Modelled from the spec (§4.3): "double every literal `{` and `}`
character", as a single character-by-character pass. -/
def doubleSpec : List Char → List Char
  | [] => []
  | c :: rest => dbl c ++ doubleSpec rest

/-- String-level brace doubling. -/
def doubleSpecS (s : String) : String :=
  String.mk (doubleSpec s.data)

/-- Modelled from the spec (§4.3): the whole escaper in the spec's
words — first double every brace, then replace every `%s` by `{}`. -/
def escapeSpec (l : List Char) : List Char :=
  pyReplace2 '%' 's' ['{', '}'] (doubleSpec l)

/-- String-level spec escaper. -/
def escapeSpecS (s : String) : String :=
  String.mk (escapeSpec s.data)

/-- Modelled from the spec (§8): the inverse un-doubling transform,
collapsing each `{{` to `{` and each `}}` to `}`. -/
def undouble : List Char → List Char
  | [] => []
  | [c] => [c]
  | c :: d :: rest =>
    if (c = '{' ∧ d = '{') ∨ (c = '}' ∧ d = '}') then c :: undouble rest
    else c :: undouble (d :: rest)

/-- String-level un-doubling. -/
def undoubleS (s : String) : String :=
  String.mk (undouble s.data)

theorem search_escape_eq_doubleSpec (l : List Char) :
    search_escape l = doubleSpec l := by
  induction l with
  | nil => rfl
  | cons c rest ih =>
    simp only [search_escape] at ih ⊢
    by_cases hc : c = '{'
    · subst hc
      simp [pyReplace1, doubleSpec, dbl, ih]
    · by_cases hd : c = '}'
      · subst hd
        simp [pyReplace1, doubleSpec, dbl, hc, ih]
      · simp [pyReplace1, doubleSpec, dbl, hc, hd, ih]

theorem doubleSpec_head? (l : List Char) :
    (doubleSpec l).head? = l.head? := by
  cases l with
  | nil => rfl
  | cons c rest =>
    simp only [doubleSpec, dbl]
    by_cases hc : c = '{' <;> by_cases hd : c = '}' <;>
      simp [hc, hd]

theorem hasSub2_doubleSpec (l : List Char) :
    hasSub2 '%' 's' (doubleSpec l) = hasSub2 '%' 's' l := by
  induction l with
  | nil => rfl
  | cons c rest ih =>
    by_cases hc : c = '{'
    · subst hc
      simp [doubleSpec, dbl, hasSub2, ih]
    · by_cases hd : c = '}'
      · subst hd
        simp [doubleSpec, dbl, hasSub2, ih]
      · simp [doubleSpec, dbl, hc, hd, hasSub2, ih, doubleSpec_head?]

theorem pyReplace2_of_not_hasSub2 (a b : Char) (new l)
    (h : hasSub2 a b l = false) : pyReplace2 a b new l = l := by
  induction l with
  | nil => rfl
  | cons c rest ih =>
    cases rest with
    | nil => rfl
    | cons d rest' =>
      have h1 : ((c = a && ((d :: rest').head? = some b)) ||
          hasSub2 a b (d :: rest')) = false := h
      rw [Bool.or_eq_false_iff] at h1
      have hcd : ¬(c = a ∧ d = b) := by
        intro hx
        have hx1 := h1.1
        rw [hx.1, hx.2] at hx1
        simp at hx1
      simp [pyReplace2, hcd, ih h1.2]

theorem undouble_doubleSpec (l : List Char) :
    undouble (doubleSpec l) = l := by
  induction l with
  | nil => rfl
  | cons c rest ih =>
    by_cases hc : c = '{'
    · subst hc
      simp [doubleSpec, dbl, undouble, ih]
    · by_cases hd : c = '}'
      · subst hd
        simp [doubleSpec, dbl, hc, undouble, ih]
      · cases rest with
        | nil => simp [doubleSpec, dbl, hc, hd, undouble]
        | cons e rest' =>
          have hhead : (doubleSpec (e :: rest')).head? = some e := by
            simp [doubleSpec_head?]
          cases hds : doubleSpec (e :: rest') with
          | nil => rw [hds] at hhead; exact absurd hhead (by simp)
          | cons f tail =>
            rw [hds] at hhead
            have hf : f = e := by
              simp only [List.head?, Option.some.injEq] at hhead
              exact hhead
            rw [hf] at hds
            have hdc : dbl c = [c] := by simp [dbl, hc, hd]
            have hstep : doubleSpec (c :: e :: rest') = c :: e :: tail := by
              show dbl c ++ doubleSpec (e :: rest') = c :: e :: tail
              rw [hdc, hds]
              rfl
            rw [hstep]
            have hcond : ¬((c = '{' ∧ e = '{') ∨ (c = '}' ∧ e = '}')) := by
              rintro (⟨h1, h2⟩ | ⟨h1, h2⟩)
              · exact hc h1
              · exact hd h1
            show (if (c = '{' ∧ e = '{') ∨ (c = '}' ∧ e = '}') then
                c :: undouble tail else c :: undouble (e :: tail)) =
                c :: e :: rest'
            rw [if_neg hcond, ← hds, ih]

/-- The projection of a bs4 tag the script consults: its tag name, the
`href` and `shortcuturl` attributes (absent attributes raise `KeyError`
when indexed) and `tag.string` (which is `None` when the tag has no
string content). No other attribute is ever read by the script. -/
structure AnchorNode where
  name : String
  href : Option String
  shortcuturl : Option String
  string : Option String
deriving DecidableEq, Repr

/-- The Python exceptions the script can raise. -/
inductive Err where
  /-- `KeyError` from `tag[attr]` during `str.format` or lines 199-200. -/
  | fieldKeyError (attr : String)
  /-- `KeyError` from `tag[attr]` inside a `bookmark_query` predicate. -/
  | predKeyError (attr : String)
  /-- `KeyError` from the `output_template[output_format][typ]` lookup. -/
  | templateKeyError (fmt typ : String)
  /-- `KeyError` from the `bookmark_query[typ]` lookup. -/
  | unknownType (typ : String)
deriving DecidableEq, Repr

/-- Python truthiness of `tag.string` (`None` and `''` are falsy). -/
def truthyString (t : AnchorNode) : Bool :=
  match t.string with
  | none => false
  | some s => !s.isEmpty

/-- `bookmark_query['search']` (lines 163-166): anchor with a
`shortcuturl` attribute whose `href` contains `%s`. Reading
`tag['href']` raises when the attribute is absent; the earlier
conjuncts short-circuit first. -/
def clsSearch (t : AnchorNode) : Except Err Bool :=
  if t.name ≠ "a" then .ok false
  else if t.shortcuturl.isNone then .ok false
  else match t.href with
    | none => .error (.predKeyError "href")
    | some h => .ok (hasPercentS h)

/-- `bookmark_query['keyword']` (lines 167-170): anchor with a
`shortcuturl` attribute whose `href` does not contain `%s`. -/
def clsKeyword (t : AnchorNode) : Except Err Bool :=
  if t.name ≠ "a" then .ok false
  else if t.shortcuturl.isNone then .ok false
  else match t.href with
    | none => .error (.predKeyError "href")
    | some h => .ok (!hasPercentS h)

/-- `bookmark_query['bookmark']` (lines 171-174): anchor without a
`shortcuturl` attribute and with truthy string content. -/
def clsBookmark (t : AnchorNode) : Except Err Bool :=
  if t.name ≠ "a" then .ok false
  else if t.shortcuturl.isSome then .ok false
  else .ok (truthyString t)

/-- The `bookmark_query` dictionary (lines 162-175). -/
def bookmark_query (typ : String) : Option (AnchorNode → Except Err Bool) :=
  if typ = "search" then some clsSearch
  else if typ = "keyword" then some clsKeyword
  else if typ = "bookmark" then some clsBookmark
  else none

/-- `soup.findAll(pred)`: every node satisfying the predicate, in
document order; an exception inside the predicate aborts the scan. -/
def findAll (p : AnchorNode → Except Err Bool) :
    List AnchorNode → Except Err (List AnchorNode)
  | [] => .ok []
  | t :: rest =>
    match p t with
    | .error e => .error e
    | .ok b =>
      match findAll p rest with
      | .error e => .error e
      | .ok r => .ok (if b then t :: r else r)

/-- One component of a Python format string: a literal piece or a
substitution field (`{tag[href]}`, `{tag[shortcuturl]}`,
`{tag.string}`). -/
inductive Piece where
  | lit (s : String)
  | fHref
  | fShortcut
  | fString
deriving DecidableEq, Repr

/-- The `output_template` dictionary (lines 176-193), with each format
string split into its literal and field pieces. -/
def output_template (fmt typ : String) : Option (List Piece) :=
  if fmt = "search" then
    if typ = "search" then
      some [.lit "c.url.searchengines['", .fShortcut, .lit "'] = '",
        .fHref, .lit "' #", .fString]
    else none
  else if fmt = "oldsearch" then
    if typ = "search" then
      some [.fShortcut, .lit " = ", .fHref, .lit " #", .fString]
    else none
  else if fmt = "bookmark" then
    if typ = "bookmark" then some [.fHref, .lit " ", .fString]
    else if typ = "keyword" then some [.fHref, .lit " ", .fString]
    else none
  else if fmt = "quickmark" then
    if typ = "bookmark" then some [.fString, .lit " ", .fHref]
    else if typ = "keyword" then some [.fShortcut, .lit " ", .fHref]
    else none
  else none

/-- `str(tag.string)`: Python prints `None` as the text `"None"`. -/
def pyStr (s : Option String) : String :=
  match s with
  | none => "None"
  | some v => v

/-- One field of `str.format`: `{tag[attr]}` raises `KeyError` for a
missing attribute, `{tag.string}` formats via `str`. -/
def evalPiece (t : AnchorNode) : Piece → Except Err String
  | .lit s => .ok s
  | .fHref =>
    match t.href with
    | none => .error (.fieldKeyError "href")
    | some h => .ok h
  | .fShortcut =>
    match t.shortcuturl with
    | none => .error (.fieldKeyError "shortcuturl")
    | some u => .ok u
  | .fString => .ok (pyStr t.string)

/-- `template.format(tag=tag)`: pieces are evaluated left to right and
concatenated; the first missing attribute raises. -/
def formatPieces (ps : List Piece) (t : AnchorNode) : Except Err String :=
  match ps with
  | [] => .ok ""
  | p :: rest =>
    match evalPiece t p with
    | .error e => .error e
    | .ok v =>
      match formatPieces rest t with
      | .error e => .error e
      | .ok r => .ok (v ++ r)

/-- `Except.isError`. -/
def isErr {α : Type} (e : Except Err α) : Bool :=
  match e with
  | .error _ => true
  | .ok _ => false

/-- Whether a predicate call returned `True` (as opposed to returning
`False` or raising). -/
def isOkTrue (e : Except Err Bool) : Bool :=
  match e with
  | .ok true => true
  | _ => false

/-- The `href` mutation of lines 198-199: for the search type the tag's
`href` is overwritten with its escaped form before the duplicate check. -/
def mutateTag (typ : String) (t : AnchorNode) : Except Err AnchorNode :=
  if typ = "search" then
    match t.href with
    | none => .error (.fieldKeyError "href")
    | some h => .ok { t with href := some (escapeHrefS h) }
  else .ok t

/-- `output_template[output_format][typ].format(tag=tag)` (line 202). -/
def renderTag (fmt typ : String) (t : AnchorNode) : Except Err String :=
  match output_template fmt typ with
  | none => .error (.templateKeyError fmt typ)
  | some ps => formatPieces ps t

/-- The inner loop of lines 197-202 over the tags of one type: escape
search hrefs, then append the rendered line unless `tag['href']` is
already a member of the list `bookmarks` of rendered lines. -/
def processTags (fmt typ : String) :
    List AnchorNode → List String → Except Err (List String)
  | [], acc => .ok acc
  | t :: rest, acc =>
    match mutateTag typ t with
    | .error e => .error e
    | .ok t' =>
      match t'.href with
      | none => .error (.fieldKeyError "href")
      | some h =>
        if h ∈ acc then processTags fmt typ rest acc
        else
          match renderTag fmt typ t' with
          | .error e => .error e
          | .ok line => processTags fmt typ rest (acc ++ [line])

/-- The outer loop of line 195: each requested type in order, sharing
the single `bookmarks` accumulator across types. -/
def runTypes (anchors : List AnchorNode) (fmt : String) :
    List String → List String → Except Err (List String)
  | [], acc => .ok acc
  | typ :: rest, acc =>
    match bookmark_query typ with
    | none => .error (.unknownType typ)
    | some q =>
      match findAll q anchors with
      | .error e => .error e
      | .ok tags =>
        match processTags fmt typ tags acc with
        | .error e => .error e
        | .ok acc' => runTypes anchors fmt rest acc'

/-- `import_netscape_bookmarks` (lines 150-204), with the parsed soup
modelled as the document-ordered list of its nodes: returns the list of
lines that the final loop prints. -/
def import_netscape_bookmarks (anchors : List AnchorNode)
    (bookmark_types : List String) (output_format : String) :
    Except Err (List String) :=
  runTypes anchors output_format bookmark_types []

/-- The CLI flags consumed by `main` (lines 41-75) that influence the
resolved categories and output format. -/
structure Args where
  search_output : Bool
  oldconfig : Bool
  bookmark_output : Bool
  quickmark_output : Bool
  import_bookmarks : Bool
  import_keywords : Bool
deriving DecidableEq, Repr

/-- The flag-resolution logic of `main` (lines 43-65): returns the
resolved `(bookmark_types, output_format)` pair. -/
def resolveConfig (a : Args) : List String × String :=
  let pair :=
    if a.search_output then
      (["search"], some (if a.oldconfig then "oldsearch" else "search"))
    else
      ((if a.import_bookmarks then ["bookmark"] else []) ++
        (if a.import_keywords then ["keyword"] else []),
       if a.bookmark_output then some "bookmark"
       else if a.quickmark_output then some "quickmark"
       else none)
  let types := if pair.1 = [] then ["bookmark", "keyword"] else pair.1
  let fmt := match pair.2 with
    | none => "quickmark"
    | some f => f
  (types, fmt)

/-- C4: Classification exclusivity — for every anchor node (any tag
name, attribute values and string content), at most one of the three
`bookmark_query` predicates `search`, `keyword`, `bookmark` returns
`True`. -/
theorem c4_classification_exclusive (t : AnchorNode) :
    List.countP isOkTrue [clsSearch t, clsKeyword t, clsBookmark t] ≤ 1 := by
  rcases t with ⟨nm, href, scu, str⟩
  simp only [clsSearch, clsKeyword, clsBookmark]
  by_cases hn : nm = "a"
  · cases scu with
    | none =>
      cases hb : truthyString ⟨nm, href, none, str⟩ <;>
        simp [hn, hb, isOkTrue, List.countP_cons]
    | some u =>
      cases href with
      | none => simp [hn, isOkTrue, List.countP_cons]
      | some h =>
        cases hp : hasPercentS h <;>
          simp [hn, hp, isOkTrue, List.countP_cons]
  · simp [hn, isOkTrue, List.countP_cons]

/-- C5: the URL escaper applied to a search href (line 199,
`search_escape(tag['href']).replace('%s', '{}')`) is the pure total
transform that first doubles every literal brace and then replaces
every `%s` by `{}`; in particular on `"http://x/%s"` and `"a{b}%s"` it
yields `"http://x/{}"` and `"a{{b}}{}"`. -/
theorem c5_escape_order_and_values :
    (∀ s : String, escapeHrefS s = escapeSpecS s) ∧
    escapeHrefS "http://x/%s" = "http://x/{}" ∧
    escapeHrefS "a{b}%s" = "a{{b}}{}" := by
  refine ⟨fun s => ?_, by rfl, by rfl⟩
  show String.mk (escapeHref s.data) = String.mk (escapeSpec s.data)
  simp only [escapeHref, escapeSpec, search_escape_eq_doubleSpec]

/-- C6: for every string without a `%s` substring the escaper only
doubles every `{` and `}` and is otherwise the identity, and the
un-doubling transform inverts it. -/
theorem c6_escape_roundtrip (s : String) (h : hasPercentS s = false) :
    escapeHrefS s = doubleSpecS s ∧ undoubleS (escapeHrefS s) = s := by
  have h1 : escapeHref s.data = doubleSpec s.data := by
    simp only [escapeHref, search_escape_eq_doubleSpec]
    exact pyReplace2_of_not_hasSub2 _ _ _ _
      (by rw [hasSub2_doubleSpec]; exact h)
  constructor
  · show String.mk (escapeHref s.data) = String.mk (doubleSpec s.data)
    rw [h1]
  · show String.mk (undouble (escapeHref s.data)) = s
    rw [h1, undouble_doubleSpec]

/-- Witness for C6 at the concrete string `"a{b}c"`. -/
theorem c6_escape_roundtrip_witness :
    hasPercentS "a{b}c" = false ∧
    (escapeHrefS "a{b}c" = doubleSpecS "a{b}c" ∧
      undoubleS (escapeHrefS "a{b}c") = "a{b}c") :=
  ⟨by decide, c6_escape_roundtrip "a{b}c" (by decide)⟩

/-- C1 (code behavior at the failing input): the claim says an anchor
whose href equals an already-emitted anchor's href is dropped, so the
hrefs `[http://a.com, http://b.com, http://a.com]` should yield two
lines. The code instead tests `tag['href'] not in bookmarks` against
the list of *rendered lines*, so all three anchors are emitted,
including two lines for the duplicated href `http://a.com`. -/
theorem c1_dedup_failing_input :
    import_netscape_bookmarks
      [⟨"a", some "http://a.com", none, some "X"⟩,
       ⟨"a", some "http://b.com", none, some "B"⟩,
       ⟨"a", some "http://a.com", none, some "Y"⟩]
      ["bookmark"] "quickmark" =
      Except.ok ["X http://a.com", "B http://b.com", "Y http://a.com"] := by
  rfl

/-- C2 counterexample: with categories `[search]` and mode `search`,
the anchor `<a href="http://b.com?q=%s" shortcuturl="b">B</a>` does
not produce the line `searchengines['b'] = 'http://b.com?q={}' #B`
the claim states: the template of line 179 carries a `c.url.` prefix. -/
theorem c2_search_line_counterexample :
    import_netscape_bookmarks
      [⟨"a", some "http://b.com?q=%s", some "b", some "B"⟩]
      ["search"] "search" ≠
      Except.ok ["searchengines['b'] = 'http://b.com?q={}' #B"] := by
  intro hcontra
  have h1 : Except.ok (ε := Err)
      ["c.url.searchengines['b'] = 'http://b.com?q={}' #B"] =
      Except.ok ["searchengines['b'] = 'http://b.com?q={}' #B"] :=
    Eq.trans (by rfl) hcontra
  simp only [Except.ok.injEq, List.cons.injEq, and_true] at h1
  exact absurd h1 (by decide)

/-- C2 amended: the (`search`, `search`) template is the literal
`c.url.searchengines['{shortcut}'] = '{href}' #{text}`, and the run
on the claim's anchor emits exactly
`c.url.searchengines['b'] = 'http://b.com?q={}' #B`. -/
theorem c2_search_line_amended :
    (∀ h u x : String,
      renderTag "search" "search" ⟨"a", some h, some u, some x⟩ =
        Except.ok
          ("c.url.searchengines['" ++ u ++ "'] = '" ++ h ++ "' #" ++ x)) ∧
    import_netscape_bookmarks
      [⟨"a", some "http://b.com?q=%s", some "b", some "B"⟩]
      ["search"] "search" =
      Except.ok ["c.url.searchengines['b'] = 'http://b.com?q={}' #B"] := by
  constructor
  · intro h u x
    simp [renderTag, output_template, formatPieces, evalPiece, pyStr,
      String.append_assoc]
  · rfl

/-- C3 counterexample: the (`search`, `search`) template references
`tag.string`, yet on a record whose string content is absent the
render does not raise — it silently substitutes the placeholder text
`None`, contrary to the claim's "raises iff a referenced field is
absent". -/
theorem c3_missing_field_counterexample :
    output_template "search" "search" =
      some [Piece.lit "c.url.searchengines['", Piece.fShortcut,
        Piece.lit "'] = '", Piece.fHref, Piece.lit "' #", Piece.fString] ∧
    formatPieces
      [Piece.lit "c.url.searchengines['", Piece.fShortcut,
        Piece.lit "'] = '", Piece.fHref, Piece.lit "' #", Piece.fString]
      ⟨"a", some "x", some "s", none⟩ =
      Except.ok "c.url.searchengines['s'] = 'x' #None" := by
  exact ⟨rfl, by rfl⟩

/-- C3 amended: for every entry of the template table, rendering
raises iff the template references an *indexed attribute* (`href` or
`shortcuturl`) that the record lacks; a referenced but absent
`tag.string` never raises (it renders as `"None"`). -/
theorem c3_missing_field_error_iff (fmt typ : String) (ps : List Piece)
    (t : AnchorNode) (hps : output_template fmt typ = some ps) :
    isErr (formatPieces ps t) = true ↔
      (Piece.fHref ∈ ps ∧ t.href = none) ∨
      (Piece.fShortcut ∈ ps ∧ t.shortcuturl = none) := by
  unfold output_template at hps
  split_ifs at hps <;>
    first
      | exact Option.noConfusion hps
      | (simp only [Option.some.injEq] at hps
         subst hps
         rcases t with ⟨nm, href, scu, str⟩
         cases href <;> cases scu <;>
           simp [formatPieces, evalPiece, isErr, pyStr])

/-- Witness for C3's amended theorem: the (`quickmark`, `keyword`)
template references `shortcuturl`, and on a record without it the
render raises. -/
theorem c3_missing_field_error_iff_witness :
    isErr (formatPieces [Piece.fShortcut, Piece.lit " ", Piece.fHref]
      ⟨"a", some "u", none, some "B"⟩) = true :=
  (c3_missing_field_error_iff "quickmark" "keyword" _ _ rfl).mpr
    (Or.inr ⟨by decide, rfl⟩)

/-- C7: Quickmark-mode end-to-end — on the three-anchor document, with
categories `[bookmark, keyword]` and mode `quickmark`, exactly the
lines `Site A http://a.com` and `c http://c.com` are emitted in that
order, each equal to the (`quickmark`, category) template applied to
the record. -/
theorem c7_quickmark_end_to_end :
    import_netscape_bookmarks
      [⟨"a", some "http://a.com", none, some "Site A"⟩,
       ⟨"a", some "http://b.com?q=%s", some "b", some "B"⟩,
       ⟨"a", some "http://c.com", some "c", some "C"⟩]
      ["bookmark", "keyword"] "quickmark" =
      Except.ok ["Site A http://a.com", "c http://c.com"] ∧
    renderTag "quickmark" "bookmark"
      ⟨"a", some "http://a.com", none, some "Site A"⟩ =
      Except.ok "Site A http://a.com" ∧
    renderTag "quickmark" "keyword"
      ⟨"a", some "http://c.com", some "c", some "C"⟩ =
      Except.ok "c http://c.com" := by
  exact ⟨by rfl, by rfl, by rfl⟩

/-- C8: configuration defaulting — in the absence of the search flag,
no `-B`/`-K` yields categories `[bookmark, keyword]` and no `-b`/`-q`
yields mode `quickmark`; the search flag forces categories `[search]`
and mode `search` (`oldsearch` with `--oldconfig`) regardless of every
other flag. -/
theorem c8_config_defaulting (a : Args) :
    (a.search_output = false → a.import_bookmarks = false →
      a.import_keywords = false →
      (resolveConfig a).1 = ["bookmark", "keyword"]) ∧
    (a.search_output = false → a.bookmark_output = false →
      a.quickmark_output = false → (resolveConfig a).2 = "quickmark") ∧
    (a.search_output = true →
      (resolveConfig a).1 = ["search"] ∧
      (resolveConfig a).2 =
        if a.oldconfig then "oldsearch" else "search") := by
  rcases a with ⟨so, oc, bo, qo, ib, ik⟩
  refine ⟨?_, ?_, ?_⟩
  · intro h1 h2 h3
    simp only at h1 h2 h3
    subst h1; subst h2; subst h3
    simp [resolveConfig]
  · intro h1 h2 h3
    simp only at h1 h2 h3
    subst h1; subst h2; subst h3
    simp [resolveConfig]
  · intro h1
    simp only at h1
    subst h1
    constructor <;> simp [resolveConfig]

/-- Witness for C8 at two concrete flag combinations: all flags off,
and all flags on. -/
theorem c8_config_defaulting_witness :
    (resolveConfig ⟨false, false, false, false, false, false⟩).1 =
      ["bookmark", "keyword"] ∧
    (resolveConfig ⟨false, false, false, false, false, false⟩).2 =
      "quickmark" ∧
    (resolveConfig ⟨true, true, true, true, true, true⟩).1 = ["search"] ∧
    (resolveConfig ⟨true, true, true, true, true, true⟩).2 = "oldsearch" := by
  refine ⟨(c8_config_defaulting _).1 rfl rfl rfl,
    (c8_config_defaulting _).2.1 rfl rfl rfl,
    ((c8_config_defaulting _).2.2 rfl).1, ?_⟩
  have h := ((c8_config_defaulting ⟨true, true, true, true, true, true⟩).2.2
    rfl).2
  simpa using h

/-- C9: the duplicate check of line 200 compares the (possibly escaped)
href against the list of already rendered lines: a tag is dropped iff
its href is a member of that list, and two tags with the same href are
both emitted whenever no accumulated line equals that href. -/
theorem c9_dedup_compares_rendered_lines :
    (∀ fmt typ acc t t' h line,
      mutateTag typ t = Except.ok t' → t'.href = some h →
      renderTag fmt typ t' = Except.ok line →
      processTags fmt typ [t] acc =
        Except.ok (if h ∈ acc then acc else acc ++ [line])) ∧
    (∀ fmt typ acc t1 t1' t2 t2' h line1 line2,
      mutateTag typ t1 = Except.ok t1' → t1'.href = some h →
      mutateTag typ t2 = Except.ok t2' → t2'.href = some h →
      renderTag fmt typ t1' = Except.ok line1 →
      renderTag fmt typ t2' = Except.ok line2 →
      h ∉ acc → line1 ≠ h →
      processTags fmt typ [t1, t2] acc =
        Except.ok (acc ++ [line1, line2])) := by
  constructor
  · intro fmt typ acc t t' h line hmut hhref hren
    simp only [processTags, hmut, hhref, hren]
    by_cases hmem : h ∈ acc
    · simp [hmem, processTags]
    · simp [hmem, hren, processTags]
  · intro fmt typ acc t1 t1' t2 t2' h line1 line2 hm1 hh1 hm2 hh2 hr1 hr2
      hmem hne
    have hmem2 : h ∉ acc ++ [line1] := by
      intro hx
      rcases List.mem_append.mp hx with hx | hx
      · exact hmem hx
      · exact hne (List.mem_singleton.mp hx).symm
    simp only [processTags, hm1, hh1, hr1, hm2, hh2, hr2, if_neg hmem,
      if_neg hmem2]
    simp [List.append_assoc]

/-- Witness for C9: a tag is dropped when its href happens to equal an
accumulated line, and two same-href tags are both emitted otherwise. -/
theorem c9_dedup_compares_rendered_lines_witness :
    processTags "quickmark" "bookmark"
      [⟨"a", some "u", none, some "X"⟩] ["u"] = Except.ok ["u"] ∧
    processTags "quickmark" "bookmark"
      [⟨"a", some "u", none, some "X"⟩,
       ⟨"a", some "u", none, some "Y"⟩] [] =
      Except.ok ["X u", "Y u"] := by
  constructor
  · have h := c9_dedup_compares_rendered_lines.1 "quickmark" "bookmark"
      ["u"] ⟨"a", some "u", none, some "X"⟩ ⟨"a", some "u", none, some "X"⟩
      "u" "X u" rfl rfl (by rfl)
    simpa using h
  · exact c9_dedup_compares_rendered_lines.2 "quickmark" "bookmark" []
      ⟨"a", some "u", none, some "X"⟩ ⟨"a", some "u", none, some "X"⟩
      ⟨"a", some "u", none, some "Y"⟩ ⟨"a", some "u", none, some "Y"⟩
      "u" "X u" "Y u" rfl rfl rfl rfl (by rfl) (by rfl)
      (by simp) (by decide)

/-- C10: when `-b` and `-q` are both given without `-s`, the resolved
output format is `bookmark` — the `-b` branch of the `elif` chain at
lines 53-56 wins. -/
theorem c10_bookmark_output_precedence (a : Args)
    (hs : a.search_output = false) (hb : a.bookmark_output = true)
    (hq : a.quickmark_output = true) :
    (resolveConfig a).2 = "bookmark" := by
  rcases a with ⟨so, oc, bo, qo, ib, ik⟩
  simp only at hs hb hq
  subst hs; subst hb; subst hq
  simp [resolveConfig]

/-- Witness for C10 at the concrete flag combination `-b -q`. -/
theorem c10_bookmark_output_precedence_witness :
    (resolveConfig ⟨false, false, true, true, false, false⟩).2 =
      "bookmark" :=
  c10_bookmark_output_precedence _ rfl rfl rfl

end Importer
